import Mathlib

/- Verification development for the DL1 event source
   (ctapipe/io/dl1eventsource.py).

   The Python reader is shallowly embedded: HDF5 tables become lists of
   typed rows, the forward row iterators become explicit list cursors
   threaded through the event loop, Python dicts become insertion-ordered
   association lists, and every exception the reader can raise becomes a
   constructor of an explicit error type carried in `Except`. -/

deriving instance DecidableEq for Except

namespace DL1

/-! ## Insertion-ordered dictionaries (Python `dict`) -/

/-- Lookup in an association list, first match wins (Python `d[k]` / `k in d`). -/
def mapLookup {κ α : Type} [DecidableEq κ] : List (κ × α) → κ → Option α
  | [], _ => none
  | p :: rest, k => if p.1 = k then some p.2 else mapLookup rest k

/-- Python-dict insertion: update in place when the key exists, otherwise
append at the end (preserving insertion order). -/
def mapInsert {κ α : Type} [DecidableEq κ] : List (κ × α) → κ → α → List (κ × α)
  | [], k, v => [(k, v)]
  | p :: rest, k, v => if p.1 = k then (k, v) :: rest else p :: mapInsert rest k v

/-! ## `np.argmin` -/

/-- Tail of `np.argmin`: tracks the first index attaining the minimum so far. -/
def npArgminAux : Nat → Int → Nat → List Int → Nat
  | best, _, _, [] => best
  | best, bestVal, i, x :: xs =>
    if x < bestVal then npArgminAux i x (i + 1) xs
    else npArgminAux best bestVal (i + 1) xs

/-- `np.argmin` on a list of integers: index of the first minimal element
(0 on the empty list, where numpy would raise). -/
def npArgmin : List Int → Nat
  | [] => 0
  | x :: xs => npArgminAux 0 x 1 xs

/-! ## Rows of the HDF5 tables (one structure per table schema) -/

/-- One row of `/dl1/event/subarray/trigger`: the array trigger and event
index columns consumed by the `TriggerContainer`/`EventIndexContainer` reader. -/
structure TriggerRow where
  obs_id : Nat
  event_id : Nat
  time : Int
  tels_with_trigger : List Bool
deriving DecidableEq

/-- One row of `/dl1/event/telescope/trigger`. -/
structure TelTriggerRow where
  obs_id : Nat
  event_id : Nat
  tel_id : Nat
  telescopetrigger_time : Int
deriving DecidableEq

/-- One row of `/dl1/monitoring/subarray/pointing`. -/
structure PointingRow where
  time : Int
  array_azimuth : Int
  array_altitude : Int
  array_ra : Int
  array_dec : Int
deriving DecidableEq

/-- One row of `/dl1/monitoring/telescope/pointing/tel_XXX`. -/
structure TelPointingRow where
  telescopetrigger_time : Int
  azimuth : Int
  altitude : Int
deriving DecidableEq

/-- One row of `/dl1/event/telescope/images/tel_XXX`. -/
structure ImageRow where
  image : List Int
  peak_time : List Int
  image_mask : List Bool
deriving DecidableEq

/-- One row of `/dl1/event/telescope/parameters/tel_XXX`, already decoded by
the table reader into the fixed 7-tuple of sub-records; the payloads are
opaque to the event loop, so each is a plain integer tag here. -/
structure ParamRow where
  hillas : Int
  timing : Int
  leakage : Int
  concentration : Int
  morphology : Int
  intensity_statistics : Int
  peak_time_statistics : Int
deriving DecidableEq

/-- One row of `/configuration/simulation/run`: the raw `obs_id` column plus
the decoded `MCHeaderContainer` (opaque payload). -/
structure RunConfigRow where
  obs_id : Nat
  header : Nat
deriving DecidableEq

/-- The `simulation` group at the file root; `shower_table` is
`/simulation/event/subarray/shower` (opaque `MCEventContainer` payloads) and
`has_telescope_event` records whether `"telescope" in simulation.event`. -/
structure SimGroup where
  shower_table : List Nat
  has_telescope_event : Bool
deriving DecidableEq

/-- The open HDF5 file as seen by `DL1EventSource`. Optional groups are
`Option`s: `image_group`/`param_group` are `none` when the corresponding
node does not exist under `dl1.event.telescope` (an existing but empty group
is `some []`), per-telescope tables are keyed by telescope id, and
`process_type` is the root attribute `"CTA PROCESS TYPE"`. -/
structure DL1File where
  process_type : Option String
  trigger_table : List TriggerRow
  tel_trigger_table : List TelTriggerRow
  image_group : Option (List (Nat × List ImageRow))
  param_group : Option (List (Nat × List ParamRow))
  array_pointing : List PointingRow
  tel_pointing : List (Nat × List TelPointingRow)
  simulation : Option SimGroup
  config_simulation_run : Option (List RunConfigRow)
deriving DecidableEq

/-! ## Capability probes -/

inductive DataLevel
  | DL1_IMAGES
  | DL1_PARAMETERS
deriving DecidableEq, BEq

/-- `DL1EventSource.datalevels`: inspects which of `parameters`/`images`
exists under `dl1.event.telescope`; note the property has no `else` branch,
so it returns `None` (here `none`) when neither exists. -/
def datalevels (f : DL1File) : Option (List DataLevel) :=
  let params := f.param_group.isSome
  let images := f.image_group.isSome
  if params && images then some [DataLevel.DL1_IMAGES, DataLevel.DL1_PARAMETERS]
  else if params then some [DataLevel.DL1_PARAMETERS]
  else if images then some [DataLevel.DL1_IMAGES]
  else none

/-- `DL1EventSource.__len__`: the row count of the array trigger table. -/
def source_len (f : DL1File) : Nat := f.trigger_table.length

/-- `DL1EventSource._parse_mc_headers`: iterate the run configuration table
in file order, keying each decoded header by that row's `obs_id`. -/
def parse_mc_headers (f : DL1File) : List (Nat × Nat) :=
  match f.config_simulation_run with
  | none => []
  | some rows => rows.foldl (fun m r => mapInsert m r.obs_id r.header) []

/-! ## `is_compatible` -/

/-- The 8-byte HDF5 signature `b"\x89HDF\r\n\x1a\n"`. -/
def HDF5_SIGNATURE : List Nat := [137, 72, 68, 70, 13, 10, 26, 10]

/-- A file as seen by the static `is_compatible` probe: its first 8 bytes
and the root attribute set. -/
structure FileOnDisk where
  magic : List Nat
  attrs : List (String × String)
deriving DecidableEq

inductive CompatError
  | keyError
deriving DecidableEq

/-- `DL1EventSource.is_compatible`: signature check, then the
`"CTA PRODUCT DESCRIPTION"` attribute (membership tested first), then the
`"CTA PRODUCT DATA MODEL VERSION"` attribute — whose membership is NOT
tested before subscripting, so a missing version key raises (`.error`). -/
def is_compatible (f : FileOnDisk) : Except CompatError Bool :=
  if f.magic ≠ HDF5_SIGNATURE then .ok false
  else
    match mapLookup f.attrs "CTA PRODUCT DESCRIPTION" with
    | none => .ok false
    | some desc =>
      if desc ≠ "DL1 Data Product" then .ok false
      else
        match mapLookup f.attrs "CTA PRODUCT DATA MODEL VERSION" with
        | none => .error CompatError.keyError
        | some ver => if ver ≠ "v1.0.0" then .ok false else .ok true

/-! ## The assembled event (`EventAndMonDataContainer` as observed) -/

structure EventIndex where
  obs_id : Nat
  event_id : Nat
deriving DecidableEq, Inhabited

structure ArrayPointing where
  array_azimuth : Int
  array_altitude : Int
  array_ra : Int
  array_dec : Int
deriving DecidableEq, Inhabited

structure TelPointing where
  azimuth : Int
  altitude : Int
deriving DecidableEq, Inhabited

/-- Per-telescope DL1 data of one event: the image fields and/or the
parameter bundle, whichever was read. -/
structure TelDL1 where
  image : Option ImageRow
  parameters : Option ParamRow
deriving DecidableEq, Inhabited

/-- One yielded event. `count` is the 0-based sequence index, `trigger_tel`
is the per-telescope trigger-time map, `dl1_tel` the per-telescope DL1 map,
`mc`/`mcheader` the simulation truth and run header (simulation files only). -/
structure Event where
  count : Nat
  index : EventIndex
  trigger_time : Int
  tels_with_trigger : List Nat
  trigger_tel : List (Nat × Int)
  pointing_array : ArrayPointing
  pointing_tel : List (Nat × TelPointing)
  dl1_tel : List (Nat × TelDL1)
  mc : Option Nat
  mcheader : Option Nat
deriving DecidableEq, Inhabited

/-- The exceptions `_generate_events` can raise:
`attrError` — missing `"CTA PROCESS TYPE"` root attribute;
`typeError` — `in`-test against `None` when `datalevels` is `None`;
`runtimeStop` — a `next()` on an exhausted iterator inside the generator
(PEP 479 turns the `StopIteration` into a `RuntimeError`);
`nodeError tel` — missing per-telescope pointing node;
`keyError obs` — `obs_id` absent from the run-header registry;
`valueError` — `np.argmin` on an empty column. -/
inductive GenError
  | attrError
  | typeError
  | runtimeStop
  | nodeError (tel : Nat)
  | keyError (obs : Nat)
  | valueError
deriving DecidableEq

/-! ## The per-event steps -/

/-- Decoding of the triggered-telescope bitmap,
`np.where(tels_with_trigger)[0] + 1`: bit position i ↔ telescope id i+1. -/
def decodeTelsWithTrigger (bits : List Bool) : List Nat :=
  (bits.enum.filter (fun p => p.2)).map (fun p => p.1 + 1)

/-- The guard `self.allowed_tels and tel not in self.allowed_tels`:
`none` models `allowed_tels = None`, and an empty list is falsy in Python,
so filtering only happens for a configured non-empty allow-list. -/
def allowedBlocks (allowed : Option (List Nat)) (tel : Nat) : Bool :=
  match allowed with
  | none => false
  | some l => !l.isEmpty && !l.contains tel

/-- The scan of `dl1.event.telescope.trigger.where((obs_id==..) & (event_id==..))`
recording each surviving row's trigger time into `data.trigger.tel`. -/
def scanTelTriggers (allowed : Option (List Nat)) (obs evid : Nat) :
    List TelTriggerRow → List (Nat × Int) → List (Nat × Int)
  | [], acc => acc
  | r :: rest, acc =>
    if r.obs_id = obs ∧ r.event_id = evid then
      if allowedBlocks allowed r.tel_id then scanTelTriggers allowed obs evid rest acc
      else scanTelTriggers allowed obs evid rest
        (mapInsert acc r.tel_id r.telescopetrigger_time)
    else scanTelTriggers allowed obs evid rest acc

/-- `_fill_array_pointing`: `np.argmin(pointing.col("time") - trigger_time)`
— note the source computes the argmin of the SIGNED difference, there is no
absolute value. `none` models the `ValueError` of `np.argmin` on an empty
column. -/
def fillArrayPointing (table : List PointingRow) (trigger_time : Int) : Option PointingRow :=
  table.get? (npArgmin (table.map (fun r => r.time - trigger_time)))

/-- Modelled from the spec: `resolveArrayPointing` "computes
`argmin(|timestamp − triggerTime|)`", i.e. the nearest-in-time monitoring
row, ties broken toward the earliest index. This follows the specification's
words and exists only to be compared with `fillArrayPointing`, the
selection rule actually implemented by `_fill_array_pointing`. -/
def specResolveArrayPointing (table : List PointingRow) (trigger_time : Int) : Option PointingRow :=
  table.get? (npArgmin (table.map (fun r => ((r.time - trigger_time).natAbs : Int))))

/-- `_fill_telescope_pointing`: for every telescope with a recorded trigger
time (minus allow-list rejects), unconditionally subscript the telescope's
monitoring pointing node (a missing node raises, `nodeError`) and select a
row by the same signed-difference argmin as the array case. -/
def fillTelescopePointing (telPointing : List (Nat × List TelPointingRow))
    (allowed : Option (List Nat)) :
    List (Nat × Int) → Except GenError (List (Nat × TelPointing))
  | [] => .ok []
  | (tel, t) :: rest =>
    if allowedBlocks allowed tel then fillTelescopePointing telPointing allowed rest
    else
      match mapLookup telPointing tel with
      | none => .error (GenError.nodeError tel)
      | some rows =>
        match rows.get? (npArgmin (rows.map (fun r => r.telescopetrigger_time - t))) with
        | none => .error GenError.valueError
        | some prow =>
          match fillTelescopePointing telPointing allowed rest with
          | .error e => .error e
          | .ok out => .ok ((tel, ⟨prow.azimuth, prow.altitude⟩) :: out)

/-- The `if self.is_simulation:` block of one loop iteration: advance the
shower cursor once (`next(mc_shower_reader)`) and bind the run header by
`obs_id` (`self._mc_headers[data.index.obs_id]`, raising `keyError` when
absent). Returns `(data.mc, data.mcheader, remaining shower rows)`. -/
def simStep (sim : Option SimGroup) (mcHeaders : List (Nat × Nat)) (obs : Nat)
    (shower : List Nat) : Except GenError (Option Nat × Option Nat × List Nat) :=
  match sim with
  | none => .ok (none, none, shower)
  | some _ =>
    match shower with
    | [] => .error GenError.runtimeStop
    | s :: rest =>
      match mapLookup mcHeaders obs with
      | none => .error (GenError.keyError obs)
      | some h => .ok (some s, some h, rest)

/-- The per-telescope DL1 loop of `_generate_events` (lines 281-317), one
forward cursor per telescope table, threaded through.

Modelled from the spec: the per-telescope result map holds an entry only
for telescopes whose data was actually read ("present only for telescopes
found in the corresponding table") — the container `Map` type that backs
`data.dl1.tel` lives in `ctapipe.containers`, which is not under src/, so
its entry-creation behavior is taken from the specification. The control
flow (allow-list guard, membership test against the image table with a
log-and-`continue` that also skips the parameter branch, cursor `next()`
raising on exhaustion) is translated from the source. -/
def fillDL1 (levels : List DataLevel) (allowed : Option (List Nat)) :
    List Nat → List (Nat × List ImageRow) → List (Nat × List ParamRow) →
    Except GenError (List (Nat × TelDL1) × List (Nat × List ImageRow) × List (Nat × List ParamRow))
  | [], imgs, prms => .ok ([], imgs, prms)
  | tel :: rest, imgs, prms =>
    if allowedBlocks allowed tel then fillDL1 levels allowed rest imgs prms
    else if levels.contains DataLevel.DL1_IMAGES then
      match mapLookup imgs tel with
      | none => fillDL1 levels allowed rest imgs prms
      | some [] => .error GenError.runtimeStop
      | some (row :: more) =>
        if levels.contains DataLevel.DL1_PARAMETERS then
          match mapLookup prms tel with
          | none =>
            match fillDL1 levels allowed rest (mapInsert imgs tel more) prms with
            | .error e => .error e
            | .ok (out, i, p) => .ok ((tel, ⟨some row, none⟩) :: out, i, p)
          | some [] => .error GenError.runtimeStop
          | some (prow :: pmore) =>
            match fillDL1 levels allowed rest (mapInsert imgs tel more)
                (mapInsert prms tel pmore) with
            | .error e => .error e
            | .ok (out, i, p) => .ok ((tel, ⟨some row, some prow⟩) :: out, i, p)
        else
          match fillDL1 levels allowed rest (mapInsert imgs tel more) prms with
          | .error e => .error e
          | .ok (out, i, p) => .ok ((tel, ⟨some row, none⟩) :: out, i, p)
    else if levels.contains DataLevel.DL1_PARAMETERS then
      match mapLookup prms tel with
      | none => fillDL1 levels allowed rest imgs prms
      | some [] => .error GenError.runtimeStop
      | some (prow :: pmore) =>
        match fillDL1 levels allowed rest imgs (mapInsert prms tel pmore) with
        | .error e => .error e
        | .ok (out, i, p) => .ok ((tel, ⟨none, some prow⟩) :: out, i, p)
    else fillDL1 levels allowed rest imgs prms

/-- One iteration of the event loop, applied to the trigger row `rowB`
pulled by the inner `next(events)`: decode the trigger bitmap, scan the
per-telescope trigger table, fill array and telescope pointing, run the
simulation step, then the per-telescope DL1 loop, in source order.
Returns the yielded event plus the advanced shower/image/parameter cursors. -/
def processPair (f : DL1File) (allowed : Option (List Nat)) (levels : List DataLevel)
    (mch : List (Nat × Nat)) (rowB : TriggerRow) (counter : Nat) (shower : List Nat)
    (imgs : List (Nat × List ImageRow)) (prms : List (Nat × List ParamRow)) :
    Except GenError (Event × List Nat × List (Nat × List ImageRow) × List (Nat × List ParamRow)) :=
  let trigTel := scanTelTriggers allowed rowB.obs_id rowB.event_id f.tel_trigger_table []
  match fillArrayPointing f.array_pointing rowB.time with
  | none => .error GenError.valueError
  | some ap =>
    match fillTelescopePointing f.tel_pointing allowed trigTel with
    | .error e => .error e
    | .ok ptTel =>
      match simStep f.simulation mch rowB.obs_id shower with
      | .error e => .error e
      | .ok (mc, mheader, shower') =>
        match fillDL1 levels allowed (trigTel.map (fun p => p.1)) imgs prms with
        | .error e => .error e
        | .ok (dl1, imgs', prms') =>
          .ok ({ count := counter
                 index := ⟨rowB.obs_id, rowB.event_id⟩
                 trigger_time := rowB.time
                 tels_with_trigger := decodeTelsWithTrigger rowB.tels_with_trigger
                 trigger_tel := trigTel
                 pointing_array :=
                   ⟨ap.array_azimuth, ap.array_altitude, ap.array_ra, ap.array_dec⟩
                 pointing_tel := ptTel
                 dl1_tel := dl1
                 mc := mc
                 mcheader := mheader }, shower', imgs', prms')

/-- The `for counter, array_event in enumerate(events):` loop. The loop
header pulls one trigger row (bound to the unused `array_event`), and the
body's `data.trigger, data.index = next(events)` pulls a SECOND row from
the same iterator, so each iteration consumes two trigger rows and the
event is built from the second one; with one row left, the inner `next`
raises (`runtimeStop`). -/
def generateLoop (f : DL1File) (allowed : Option (List Nat)) (levels : List DataLevel)
    (mch : List (Nat × Nat)) :
    List TriggerRow → Nat → List Nat → List (Nat × List ImageRow) →
    List (Nat × List ParamRow) → Except GenError (List Event)
  | [], _, _, _, _ => .ok []
  | [_], _, _, _, _ => .error GenError.runtimeStop
  | _ :: rowB :: restB, counter, shower, imgs, prms =>
    match processPair f allowed levels mch rowB counter shower imgs prms with
    | .error e => .error e
    | .ok (ev, shower', imgs', prms') =>
      match generateLoop f allowed levels mch restB (counter + 1) shower' imgs' prms' with
      | .error e => .error e
      | .ok evs => .ok (ev :: evs)

/-- `DL1EventSource._generate_events`, run to completion: read the
`"CTA PROCESS TYPE"` attribute (raises when absent), test the datalevels
(an `in`-test against `None` raises `typeError` when neither `images` nor
`parameters` exists), build the per-telescope cursors and the run-header
registry, then drive the trigger loop. The result is the list of yielded
events, or the error that aborted the generator (nothing is yielded past
an error in this model: all claims here concern the prefix-independent
facts of successful runs or the aborting error itself). -/
def generate_events (f : DL1File) (allowed : Option (List Nat)) : Except GenError (List Event) :=
  match f.process_type with
  | none => .error GenError.attrError
  | some _ =>
    match datalevels f with
    | none => .error GenError.typeError
    | some levels =>
      let imgs := if levels.contains DataLevel.DL1_IMAGES then f.image_group.getD [] else []
      let prms := if levels.contains DataLevel.DL1_PARAMETERS then f.param_group.getD [] else []
      let shower := match f.simulation with
        | some s => s.shower_table
        | none => []
      generateLoop f allowed levels (parse_mc_headers f) f.trigger_table 0 shower imgs prms

/-! ## Dictionary lemmas -/

theorem mapLookup_mapInsert_ne {κ α : Type} [DecidableEq κ] (m : List (κ × α)) (k k' : κ)
    (v : α) (h : k' ≠ k) : mapLookup (mapInsert m k v) k' = mapLookup m k' := by
  induction m with
  | nil => simp [mapInsert, mapLookup, Ne.symm h]
  | cons p rest ih =>
    by_cases hp : p.1 = k
    · simp [mapInsert, hp, mapLookup, Ne.symm h]
    · simp [mapInsert, hp, mapLookup, ih]

theorem mapLookup_mem {κ α : Type} [DecidableEq κ] (m : List (κ × α)) (k : κ) (v : α)
    (h : mapLookup m k = some v) : (k, v) ∈ m := by
  induction m with
  | nil => simp [mapLookup] at h
  | cons p rest ih =>
    by_cases hp : p.1 = k
    · rw [mapLookup, if_pos hp] at h
      obtain ⟨p1, p2⟩ := p
      simp only [Option.some.injEq] at h
      simp only at hp
      subst hp; subst h
      exact List.mem_cons_self _ _
    · rw [mapLookup, if_neg hp] at h
      exact List.mem_cons_of_mem _ (ih h)

theorem mem_mapInsert {κ α : Type} [DecidableEq κ] (m : List (κ × α)) (k : κ) (v : α)
    (p : κ × α) (h : p ∈ mapInsert m k v) : p ∈ m ∨ p = (k, v) := by
  induction m with
  | nil =>
    right
    simpa [mapInsert] using h
  | cons q rest ih =>
    by_cases hq : q.1 = k
    · rw [mapInsert, if_pos hq] at h
      rcases List.mem_cons.mp h with h' | h'
      · right; exact h'
      · left; exact List.mem_cons_of_mem _ h'
    · rw [mapInsert, if_neg hq] at h
      rcases List.mem_cons.mp h with h' | h'
      · left; exact h' ▸ List.mem_cons_self _ _
      · rcases ih h' with h'' | h''
        · left; exact List.mem_cons_of_mem _ h''
        · right; exact h''

/-! ## A two-step list induction matching the loop's two-rows-per-iteration shape -/

def twoStepInduction {α : Type} {motive : List α → Prop} (h0 : motive [])
    (h1 : ∀ a, motive [a])
    (h2 : ∀ a b rest, motive rest → motive (a :: b :: rest)) : ∀ l, motive l
  | [] => h0
  | [a] => h1 a
  | a :: b :: rest => h2 a b rest (twoStepInduction h0 h1 h2 rest)

/-! ## Allow-list lemmas -/

/-- "The telescope is acceptable under the configured allow-list": trivially
true when no allow-list is configured (`none`, or the falsy empty list),
and membership otherwise. -/
def allowedOk (allowed : Option (List Nat)) (tel : Nat) : Prop :=
  match allowed with
  | none => True
  | some l => l = [] ∨ tel ∈ l

theorem allowedBlocks_false_allowedOk (allowed : Option (List Nat)) (tel : Nat)
    (h : allowedBlocks allowed tel = false) : allowedOk allowed tel := by
  cases allowed with
  | none => trivial
  | some l =>
    by_cases hl : l = []
    · exact Or.inl hl
    · right
      simp only [allowedBlocks, Bool.and_eq_false_iff, Bool.not_eq_false'] at h
      rcases h with h | h
      · exact absurd (List.isEmpty_iff.mp h) hl
      · simpa using h

/-! ## Telescope-trigger scan lemmas -/

theorem scanTelTriggers_forall (allowed : Option (List Nat)) (obs evid : Nat)
    (P : Nat × Int → Prop) :
    ∀ (table : List TelTriggerRow) (acc : List (Nat × Int)),
      (∀ r ∈ table, r.obs_id = obs → r.event_id = evid →
        allowedBlocks allowed r.tel_id = false → P (r.tel_id, r.telescopetrigger_time)) →
      (∀ p ∈ acc, P p) →
      ∀ p ∈ scanTelTriggers allowed obs evid table acc, P p := by
  intro table
  induction table with
  | nil =>
    intro acc _ hacc p hp
    rw [scanTelTriggers] at hp
    exact hacc p hp
  | cons r rest ih =>
    intro acc htab hacc p hp
    rw [scanTelTriggers] at hp
    split at hp
    · rename_i hmatch
      split at hp
      · exact ih acc (fun r' hr' => htab r' (List.mem_cons_of_mem _ hr')) hacc p hp
      · rename_i hblock
        refine ih _ (fun r' hr' => htab r' (List.mem_cons_of_mem _ hr')) ?_ p hp
        intro q hq
        rcases mem_mapInsert _ _ _ _ hq with h' | h'
        · exact hacc q h'
        · subst h'
          exact htab r (List.mem_cons_self _ _) hmatch.1 hmatch.2
            (Bool.not_eq_true _ ▸ hblock)
    · exact ih acc (fun r' hr' => htab r' (List.mem_cons_of_mem _ hr')) hacc p hp

/-! ## Telescope-pointing fill lemmas -/

theorem fillTelescopePointing_ok (tp : List (Nat × List TelPointingRow))
    (allowed : Option (List Nat)) :
    ∀ (trig : List (Nat × Int)) (out : List (Nat × TelPointing)),
      fillTelescopePointing tp allowed trig = .ok out →
      ∀ p ∈ trig, allowedBlocks allowed p.1 = false →
        (mapLookup tp p.1).isSome = true ∧ (mapLookup out p.1).isSome = true := by
  intro trig
  induction trig with
  | nil =>
    intro out _ p hp _
    simp at hp
  | cons q rest ih =>
    obtain ⟨tel, t⟩ := q
    intro out h p hp hpb
    rw [fillTelescopePointing] at h
    split at h
    · rename_i hblock
      rcases List.mem_cons.mp hp with hpq | hpr
      · subst hpq
        simp only at hpb
        rw [hpb] at hblock
        cases hblock
      · exact ih out h p hpr hpb
    · split at h
      · cases h
      · rename_i rows hlk
        split at h
        · cases h
        · rename_i prow hget
          split at h
          · cases h
          · rename_i out' hrec
            simp only [Except.ok.injEq] at h
            subst h
            rcases List.mem_cons.mp hp with hpq | hpr
            · subst hpq
              simp only
              constructor
              · rw [hlk]; rfl
              · rw [mapLookup, if_pos rfl]; rfl
            · obtain ⟨h1, h2⟩ := ih out' hrec p hpr hpb
              refine ⟨h1, ?_⟩
              rw [mapLookup]
              split
              · rfl
              · exact h2

theorem fillTelescopePointing_keys (tp : List (Nat × List TelPointingRow))
    (allowed : Option (List Nat)) :
    ∀ (trig : List (Nat × Int)) (out : List (Nat × TelPointing)),
      fillTelescopePointing tp allowed trig = .ok out →
      ∀ p ∈ out, ∃ t, (p.1, t) ∈ trig := by
  intro trig
  induction trig with
  | nil =>
    intro out h p hp
    rw [fillTelescopePointing] at h
    simp only [Except.ok.injEq] at h
    subst h
    simp at hp
  | cons q rest ih =>
    obtain ⟨tel, t⟩ := q
    intro out h p hp
    rw [fillTelescopePointing] at h
    split at h
    · obtain ⟨t', ht'⟩ := ih out h p hp
      exact ⟨t', List.mem_cons_of_mem _ ht'⟩
    · split at h
      · cases h
      · split at h
        · cases h
        · split at h
          · cases h
          · rename_i out' hrec
            simp only [Except.ok.injEq] at h
            subst h
            rcases List.mem_cons.mp hp with hpq | hpr
            · subst hpq
              exact ⟨t, List.mem_cons_self _ _⟩
            · obtain ⟨t', ht'⟩ := ih out' hrec p hpr
              exact ⟨t', List.mem_cons_of_mem _ ht'⟩

/-! ## DL1 fill lemmas -/

theorem fillDL1_image_absent (levels : List DataLevel) (allowed : Option (List Nat))
    (tel : Nat) (hlv : levels.contains DataLevel.DL1_IMAGES = true) :
    ∀ (tels : List Nat) (imgs : List (Nat × List ImageRow))
      (prms : List (Nat × List ParamRow)) (out : List (Nat × TelDL1))
      (imgs' : List (Nat × List ImageRow)) (prms' : List (Nat × List ParamRow)),
      mapLookup imgs tel = none →
      fillDL1 levels allowed tels imgs prms = .ok (out, imgs', prms') →
      mapLookup out tel = none ∧ mapLookup imgs' tel = none
        ∧ mapLookup prms' tel = mapLookup prms tel := by
  intro tels
  induction tels with
  | nil =>
    intro imgs prms out imgs' prms' himg h
    rw [fillDL1] at h
    simp only [Except.ok.injEq, Prod.mk.injEq] at h
    obtain ⟨h1, h2, h3⟩ := h
    subst h1; subst h2; subst h3
    exact ⟨rfl, himg, rfl⟩
  | cons t0 rest ih =>
    intro imgs prms out imgs' prms' himg h
    rw [fillDL1] at h
    rw [hlv] at h
    split at h
    · exact ih imgs prms out imgs' prms' himg h
    · rw [if_pos rfl] at h
      split at h
      · exact ih imgs prms out imgs' prms' himg h
      · cases h
      · rename_i row more hlk
        have hne : t0 ≠ tel := by
          intro hh
          rw [hh, himg] at hlk
          cases hlk
        have himg2 : mapLookup (mapInsert imgs t0 more) tel = none := by
          rw [mapLookup_mapInsert_ne _ _ _ _ (Ne.symm hne)]
          exact himg
        split at h
        · split at h
          · split at h
            · cases h
            · rename_i out1 i1 p1 hrec
              simp only [Except.ok.injEq, Prod.mk.injEq] at h
              obtain ⟨h1, h2, h3⟩ := h
              subst h1; subst h2; subst h3
              obtain ⟨ho, hi, hp⟩ := ih _ _ _ _ _ himg2 hrec
              exact ⟨by rw [mapLookup, if_neg hne]; exact ho, hi, hp⟩
          · cases h
          · rename_i prow pmore hlkp
            split at h
            · cases h
            · rename_i out1 i1 p1 hrec
              simp only [Except.ok.injEq, Prod.mk.injEq] at h
              obtain ⟨h1, h2, h3⟩ := h
              subst h1; subst h2; subst h3
              obtain ⟨ho, hi, hp⟩ := ih _ _ _ _ _ himg2 hrec
              refine ⟨by rw [mapLookup, if_neg hne]; exact ho, hi, ?_⟩
              rw [hp, mapLookup_mapInsert_ne _ _ _ _ (Ne.symm hne)]
        · split at h
          · cases h
          · rename_i out1 i1 p1 hrec
            simp only [Except.ok.injEq, Prod.mk.injEq] at h
            obtain ⟨h1, h2, h3⟩ := h
            subst h1; subst h2; subst h3
            obtain ⟨ho, hi, hp⟩ := ih _ _ _ _ _ himg2 hrec
            exact ⟨by rw [mapLookup, if_neg hne]; exact ho, hi, hp⟩

theorem fillDL1_param_absent (levels : List DataLevel) (allowed : Option (List Nat))
    (tel : Nat) (hlvI : levels.contains DataLevel.DL1_IMAGES = false)
    (hlvP : levels.contains DataLevel.DL1_PARAMETERS = true) :
    ∀ (tels : List Nat) (imgs : List (Nat × List ImageRow))
      (prms : List (Nat × List ParamRow)) (out : List (Nat × TelDL1))
      (imgs' : List (Nat × List ImageRow)) (prms' : List (Nat × List ParamRow)),
      mapLookup prms tel = none →
      fillDL1 levels allowed tels imgs prms = .ok (out, imgs', prms') →
      mapLookup out tel = none ∧ mapLookup prms' tel = none := by
  intro tels
  induction tels with
  | nil =>
    intro imgs prms out imgs' prms' hprm h
    rw [fillDL1] at h
    simp only [Except.ok.injEq, Prod.mk.injEq] at h
    obtain ⟨h1, h2, h3⟩ := h
    subst h1; subst h3
    exact ⟨rfl, hprm⟩
  | cons t0 rest ih =>
    intro imgs prms out imgs' prms' hprm h
    rw [fillDL1] at h
    rw [hlvI, hlvP] at h
    split at h
    · exact ih imgs prms out imgs' prms' hprm h
    · rw [if_neg (by decide), if_pos rfl] at h
      split at h
      · exact ih imgs prms out imgs' prms' hprm h
      · cases h
      · rename_i prow pmore hlkp
        have hne : t0 ≠ tel := by
          intro hh
          rw [hh, hprm] at hlkp
          cases hlkp
        have hprm2 : mapLookup (mapInsert prms t0 pmore) tel = none := by
          rw [mapLookup_mapInsert_ne _ _ _ _ (Ne.symm hne)]
          exact hprm
        split at h
        · cases h
        · rename_i out1 i1 p1 hrec
          simp only [Except.ok.injEq, Prod.mk.injEq] at h
          obtain ⟨h1, h2, h3⟩ := h
          subst h1; subst h2; subst h3
          obtain ⟨ho, hp⟩ := ih _ _ _ _ _ hprm2 hrec
          exact ⟨by rw [mapLookup, if_neg hne]; exact ho, hp⟩

theorem fillDL1_keys (levels : List DataLevel) (allowed : Option (List Nat)) :
    ∀ (tels : List Nat) (imgs : List (Nat × List ImageRow))
      (prms : List (Nat × List ParamRow)) (out : List (Nat × TelDL1))
      (imgs' : List (Nat × List ImageRow)) (prms' : List (Nat × List ParamRow)),
      fillDL1 levels allowed tels imgs prms = .ok (out, imgs', prms') →
      ∀ p ∈ out, p.1 ∈ tels ∧ allowedBlocks allowed p.1 = false := by
  intro tels
  induction tels with
  | nil =>
    intro imgs prms out imgs' prms' h p hp
    rw [fillDL1] at h
    simp only [Except.ok.injEq, Prod.mk.injEq] at h
    obtain ⟨h1, _, _⟩ := h
    subst h1
    simp at hp
  | cons t0 rest ih =>
    intro imgs prms out imgs' prms' h p hp
    have tail : ∀ out1 i1 p1, fillDL1 levels allowed rest i1 p1 = .ok (out1, imgs', prms') →
        p ∈ out1 → p.1 ∈ t0 :: rest ∧ allowedBlocks allowed p.1 = false := by
      intro out1 i1 p1 hrec hp1
      obtain ⟨hm, hb⟩ := ih i1 p1 out1 imgs' prms' hrec p hp1
      exact ⟨List.mem_cons_of_mem _ hm, hb⟩
    rw [fillDL1] at h
    split at h
    · exact tail out imgs prms h hp
    · rename_i hblock
      have hb0 : allowedBlocks allowed t0 = false := Bool.not_eq_true _ ▸ hblock
      split at h
      · split at h
        · exact tail out imgs prms h hp
        · cases h
        · rename_i row more hlk
          split at h
          · split at h
            · split at h
              · cases h
              · rename_i out1 i1 p1 hrec
                simp only [Except.ok.injEq, Prod.mk.injEq] at h
                obtain ⟨h1, h2, h3⟩ := h
                subst h1; subst h2; subst h3
                rcases List.mem_cons.mp hp with hpq | hpr
                · subst hpq
                  exact ⟨List.mem_cons_self _ _, hb0⟩
                · exact tail out1 _ _ hrec hpr
            · cases h
            · split at h
              · cases h
              · rename_i out1 i1 p1 hrec
                simp only [Except.ok.injEq, Prod.mk.injEq] at h
                obtain ⟨h1, h2, h3⟩ := h
                subst h1; subst h2; subst h3
                rcases List.mem_cons.mp hp with hpq | hpr
                · subst hpq
                  exact ⟨List.mem_cons_self _ _, hb0⟩
                · exact tail out1 _ _ hrec hpr
          · split at h
            · cases h
            · rename_i out1 i1 p1 hrec
              simp only [Except.ok.injEq, Prod.mk.injEq] at h
              obtain ⟨h1, h2, h3⟩ := h
              subst h1; subst h2; subst h3
              rcases List.mem_cons.mp hp with hpq | hpr
              · subst hpq
                exact ⟨List.mem_cons_self _ _, hb0⟩
              · exact tail out1 _ _ hrec hpr
      · split at h
        · split at h
          · exact tail out imgs prms h hp
          · cases h
          · rename_i prow pmore hlkp
            split at h
            · cases h
            · rename_i out1 i1 p1 hrec
              simp only [Except.ok.injEq, Prod.mk.injEq] at h
              obtain ⟨h1, h2, h3⟩ := h
              subst h1; subst h2; subst h3
              rcases List.mem_cons.mp hp with hpq | hpr
              · subst hpq
                exact ⟨List.mem_cons_self _ _, hb0⟩
              · exact tail out1 _ _ hrec hpr
        · exact tail out imgs prms h hp

/-! ## Simulation-step lemma -/

theorem simStep_ok (sim : Option SimGroup) (mch : List (Nat × Nat)) (obs : Nat)
    (shower : List Nat) (mc mh : Option Nat) (sh' : List Nat)
    (h : simStep sim mch obs shower = .ok (mc, mh, sh'))
    (hsim : sim.isSome = true) :
    mh = mapLookup mch obs ∧ mh.isSome = true := by
  cases sim with
  | none => cases hsim
  | some s =>
    simp only [simStep] at h
    cases shower with
    | nil => cases h
    | cons s0 srest =>
      cases hlk : mapLookup mch obs with
      | none => rw [hlk] at h; cases h
      | some hh =>
        rw [hlk] at h
        simp only [Except.ok.injEq, Prod.mk.injEq] at h
        obtain ⟨_, h2, _⟩ := h
        subst h2
        exact ⟨rfl, rfl⟩

/-! ## Per-iteration lemmas -/

theorem processPair_ok_spec (f : DL1File) (allowed : Option (List Nat))
    (levels : List DataLevel) (mch : List (Nat × Nat)) (rowB : TriggerRow) (counter : Nat)
    (shower : List Nat) (imgs : List (Nat × List ImageRow)) (prms : List (Nat × List ParamRow))
    (ev : Event) (sh1 : List Nat) (imgs1 : List (Nat × List ImageRow))
    (prms1 : List (Nat × List ParamRow))
    (h : processPair f allowed levels mch rowB counter shower imgs prms
      = .ok (ev, sh1, imgs1, prms1)) :
    ev.index = ⟨rowB.obs_id, rowB.event_id⟩
    ∧ ev.tels_with_trigger = decodeTelsWithTrigger rowB.tels_with_trigger
    ∧ ev.trigger_tel = scanTelTriggers allowed rowB.obs_id rowB.event_id f.tel_trigger_table []
    ∧ fillTelescopePointing f.tel_pointing allowed ev.trigger_tel = .ok ev.pointing_tel
    ∧ (∃ i' p', fillDL1 levels allowed (ev.trigger_tel.map (fun q => q.1)) imgs prms
        = .ok (ev.dl1_tel, i', p'))
    ∧ (f.simulation.isSome = true →
        ev.mcheader = mapLookup mch rowB.obs_id ∧ ev.mcheader.isSome = true) := by
  simp only [processPair] at h
  split at h
  · cases h
  rename_i ap hap
  split at h
  · cases h
  rename_i ptTel hpt
  split at h
  · cases h
  rename_i mc mh sh' hsim
  split at h
  · cases h
  rename_i dl1 i' p' hdl
  simp only [Except.ok.injEq, Prod.mk.injEq] at h
  obtain ⟨hev, _⟩ := h
  subst hev
  exact ⟨rfl, rfl, rfl, hpt, ⟨i', p', hdl⟩,
    fun hs => simStep_ok f.simulation mch rowB.obs_id shower mc mh sh' hsim hs⟩

theorem processPair_image_absent (f : DL1File) (allowed : Option (List Nat))
    (levels : List DataLevel) (mch : List (Nat × Nat)) (rowB : TriggerRow) (counter : Nat)
    (shower : List Nat) (imgs : List (Nat × List ImageRow)) (prms : List (Nat × List ParamRow))
    (ev : Event) (sh1 : List Nat) (imgs1 : List (Nat × List ImageRow))
    (prms1 : List (Nat × List ParamRow)) (tel : Nat)
    (hlv : levels.contains DataLevel.DL1_IMAGES = true)
    (himg : mapLookup imgs tel = none)
    (h : processPair f allowed levels mch rowB counter shower imgs prms
      = .ok (ev, sh1, imgs1, prms1)) :
    mapLookup ev.dl1_tel tel = none ∧ mapLookup imgs1 tel = none := by
  simp only [processPair] at h
  split at h
  · cases h
  rename_i ap hap
  split at h
  · cases h
  rename_i ptTel hpt
  split at h
  · cases h
  rename_i mc mh sh' hsim
  split at h
  · cases h
  rename_i dl1 i' p' hdl
  simp only [Except.ok.injEq, Prod.mk.injEq] at h
  obtain ⟨hev, _, himgs1, _⟩ := h
  subst hev
  subst himgs1
  obtain ⟨ho, hi, _⟩ := fillDL1_image_absent levels allowed tel hlv _ imgs prms dl1 i' p' himg hdl
  exact ⟨ho, hi⟩

theorem processPair_param_absent (f : DL1File) (allowed : Option (List Nat))
    (levels : List DataLevel) (mch : List (Nat × Nat)) (rowB : TriggerRow) (counter : Nat)
    (shower : List Nat) (imgs : List (Nat × List ImageRow)) (prms : List (Nat × List ParamRow))
    (ev : Event) (sh1 : List Nat) (imgs1 : List (Nat × List ImageRow))
    (prms1 : List (Nat × List ParamRow)) (tel : Nat)
    (hlvI : levels.contains DataLevel.DL1_IMAGES = false)
    (hlvP : levels.contains DataLevel.DL1_PARAMETERS = true)
    (hprm : mapLookup prms tel = none)
    (h : processPair f allowed levels mch rowB counter shower imgs prms
      = .ok (ev, sh1, imgs1, prms1)) :
    mapLookup ev.dl1_tel tel = none ∧ mapLookup prms1 tel = none := by
  simp only [processPair] at h
  split at h
  · cases h
  rename_i ap hap
  split at h
  · cases h
  rename_i ptTel hpt
  split at h
  · cases h
  rename_i mc mh sh' hsim
  split at h
  · cases h
  rename_i dl1 i' p' hdl
  simp only [Except.ok.injEq, Prod.mk.injEq] at h
  obtain ⟨hev, _, _, hprms1⟩ := h
  subst hev
  subst hprms1
  exact fillDL1_param_absent levels allowed tel hlvI hlvP _ imgs prms dl1 i' p' hprm hdl

/-! ## Loop lemmas -/

theorem generateLoop_mem (f : DL1File) (allowed : Option (List Nat)) (levels : List DataLevel)
    (mch : List (Nat × Nat)) :
    ∀ (rows : List TriggerRow) (counter : Nat) (shower : List Nat)
      (imgs : List (Nat × List ImageRow)) (prms : List (Nat × List ParamRow))
      (evs : List Event),
      generateLoop f allowed levels mch rows counter shower imgs prms = .ok evs →
      ∀ ev ∈ evs, ∃ rowB counter' shower0 imgs0 prms0 sh1 imgs1 prms1,
        rowB ∈ rows ∧
        processPair f allowed levels mch rowB counter' shower0 imgs0 prms0
          = .ok (ev, sh1, imgs1, prms1) := by
  refine twoStepInduction ?_ ?_ ?_
  · intro counter shower imgs prms evs h ev hev
    rw [generateLoop] at h
    simp only [Except.ok.injEq] at h
    subst h
    simp at hev
  · intro a counter shower imgs prms evs h ev hev
    rw [generateLoop] at h
    cases h
  · intro a b rest ih counter shower imgs prms evs h ev hev
    rw [generateLoop] at h
    split at h
    · cases h
    rename_i ev1 sh' imgs' prms' hpp
    split at h
    · cases h
    rename_i evs' hrec
    simp only [Except.ok.injEq] at h
    subst h
    rcases List.mem_cons.mp hev with hev1 | hev2
    · subst hev1
      exact ⟨b, counter, shower, imgs, prms, sh', imgs', prms',
        List.mem_cons_of_mem _ (List.mem_cons_self _ _), hpp⟩
    · obtain ⟨rowB, c', s0, i0, p0, s1, i1, p1, hmem, hppx⟩ :=
        ih (counter + 1) sh' imgs' prms' evs' hrec ev hev2
      exact ⟨rowB, c', s0, i0, p0, s1, i1, p1,
        List.mem_cons_of_mem _ (List.mem_cons_of_mem _ hmem), hppx⟩

theorem generateLoop_image_absent (f : DL1File) (allowed : Option (List Nat))
    (levels : List DataLevel) (mch : List (Nat × Nat)) (tel : Nat)
    (hlv : levels.contains DataLevel.DL1_IMAGES = true) :
    ∀ (rows : List TriggerRow) (counter : Nat) (shower : List Nat)
      (imgs : List (Nat × List ImageRow)) (prms : List (Nat × List ParamRow))
      (evs : List Event),
      mapLookup imgs tel = none →
      generateLoop f allowed levels mch rows counter shower imgs prms = .ok evs →
      ∀ ev ∈ evs, mapLookup ev.dl1_tel tel = none := by
  refine twoStepInduction ?_ ?_ ?_
  · intro counter shower imgs prms evs _ h ev hev
    rw [generateLoop] at h
    simp only [Except.ok.injEq] at h
    subst h
    simp at hev
  · intro a counter shower imgs prms evs _ h ev hev
    rw [generateLoop] at h
    cases h
  · intro a b rest ih counter shower imgs prms evs himg h ev hev
    rw [generateLoop] at h
    split at h
    · cases h
    rename_i ev1 sh' imgs' prms' hpp
    split at h
    · cases h
    rename_i evs' hrec
    simp only [Except.ok.injEq] at h
    subst h
    obtain ⟨hev1, himg'⟩ := processPair_image_absent f allowed levels mch b counter shower
      imgs prms ev1 sh' imgs' prms' tel hlv himg hpp
    rcases List.mem_cons.mp hev with he | he
    · subst he
      exact hev1
    · exact ih (counter + 1) sh' imgs' prms' evs' himg' hrec ev he

theorem generateLoop_param_absent (f : DL1File) (allowed : Option (List Nat))
    (levels : List DataLevel) (mch : List (Nat × Nat)) (tel : Nat)
    (hlvI : levels.contains DataLevel.DL1_IMAGES = false)
    (hlvP : levels.contains DataLevel.DL1_PARAMETERS = true) :
    ∀ (rows : List TriggerRow) (counter : Nat) (shower : List Nat)
      (imgs : List (Nat × List ImageRow)) (prms : List (Nat × List ParamRow))
      (evs : List Event),
      mapLookup prms tel = none →
      generateLoop f allowed levels mch rows counter shower imgs prms = .ok evs →
      ∀ ev ∈ evs, mapLookup ev.dl1_tel tel = none := by
  refine twoStepInduction ?_ ?_ ?_
  · intro counter shower imgs prms evs _ h ev hev
    rw [generateLoop] at h
    simp only [Except.ok.injEq] at h
    subst h
    simp at hev
  · intro a counter shower imgs prms evs _ h ev hev
    rw [generateLoop] at h
    cases h
  · intro a b rest ih counter shower imgs prms evs hprm h ev hev
    rw [generateLoop] at h
    split at h
    · cases h
    rename_i ev1 sh' imgs' prms' hpp
    split at h
    · cases h
    rename_i evs' hrec
    simp only [Except.ok.injEq] at h
    subst h
    obtain ⟨hev1, hprm'⟩ := processPair_param_absent f allowed levels mch b counter shower
      imgs prms ev1 sh' imgs' prms' tel hlvI hlvP hprm hpp
    rcases List.mem_cons.mp hev with he | he
    · subst he
      exact hev1
    · exact ih (counter + 1) sh' imgs' prms' evs' hprm' hrec ev he

/-! ## Concrete inputs used by the claim theorems -/

/-- Array-pointing monitoring table with timestamps 10, 20, 30 (the other
columns tag the rows 1, 2, 3 so the selected row is identifiable). -/
def pointingTable123 : List PointingRow :=
  [⟨10, 1, 1, 1, 1⟩, ⟨20, 2, 2, 2, 2⟩, ⟨30, 3, 3, 3, 3⟩]

/-- A minimal observational file whose trigger table has exactly two rows,
`(obs 1, event 1)` and `(obs 1, event 2)`. -/
def exTwoTrigger : DL1File :=
  { process_type := some "Observation"
    trigger_table := [⟨1, 1, 100, [true]⟩, ⟨1, 2, 100, [true]⟩]
    tel_trigger_table := []
    image_group := some []
    param_group := none
    array_pointing := [⟨0, 0, 0, 0, 0⟩]
    tel_pointing := []
    simulation := none
    config_simulation_run := none }

/-- The same file with a single trigger row. -/
def exOneTrigger : DL1File :=
  { exTwoTrigger with trigger_table := [⟨1, 1, 100, [true]⟩] }

/-- Claim C1. The spec: `resolveArrayPointing` selects the monitoring row
minimizing the absolute time difference, so for timestamps `[10, 20, 30]`
and trigger time `21` the row at timestamp `20`. The code
(`_fill_array_pointing` line 328) computes `np.argmin(col("time") - t)`
with no absolute value, which always selects the earliest timestamp: at
the spec's own test vector it returns the row at timestamp `10` while the
spec-modelled nearest-in-time rule returns the row at timestamp `20`. -/
theorem fill_array_pointing_drops_abs :
    fillArrayPointing pointingTable123 21 = some ⟨10, 1, 1, 1, 1⟩
    ∧ specResolveArrayPointing pointingTable123 21 = some ⟨20, 2, 2, 2, 2⟩ := by
  decide

/-- Claim C2. The claim: the trigger cursor advances exactly once per
yielded event and no trigger row is consumed without being assembled into
an event. The code (`_generate_events` lines 251-258) iterates
`enumerate(events)` AND calls `next(events)` in the body, consuming two
trigger rows per yielded event: on the two-row file it yields a single
event carrying the SECOND row's `event_id = 2` (row `(1,1)` is consumed
and discarded), and on the one-row file the inner `next` raises. -/
theorem trigger_cursor_double_advance :
    (generate_events exTwoTrigger none).map
      (fun evs => evs.map (fun e => (e.count, e.index.obs_id, e.index.event_id)))
      = .ok [(0, 1, 2)]
    ∧ generate_events exOneTrigger none = .error GenError.runtimeStop := by
  decide

/-- Claim C3. The claim: with no cap configured the number of yielded
events equals the length accessor (the trigger-table row count). Because
each loop iteration consumes two trigger rows, the two-row file yields one
event while `__len__` reports 2. -/
theorem yielded_count_half_of_len :
    (generate_events exTwoTrigger none).map List.length = .ok 1
    ∧ source_len exTwoTrigger = 2 := by
  decide

/-- A file passing the signature and product-description checks but missing
the `"CTA PRODUCT DATA MODEL VERSION"` attribute. -/
def exMissingVersion : FileOnDisk :=
  ⟨HDF5_SIGNATURE, [("CTA PRODUCT DESCRIPTION", "DL1 Data Product")]⟩

/-- Claim C4, counterexample. The claim says a missing metadata key yields
`false` and `is_compatible` never raises for a merely-incompatible file;
but on a file with a valid signature and product description and NO
data-model-version attribute, the unguarded subscript raises (the code
tests membership for the description key only). -/
theorem is_compatible_raises_on_missing_version :
    is_compatible exMissingVersion = .error CompatError.keyError
    ∧ is_compatible exMissingVersion ≠ .ok false := by
  refine ⟨rfl, ?_⟩
  intro h
  simp [is_compatible, exMissingVersion, mapLookup, HDF5_SIGNATURE] at h

/-- Claim C4, amended. `is_compatible` returns `true` iff the signature and
both metadata values match exactly; it returns `false` on a signature
mismatch, a missing product-description key, or a wrong value of either
attribute; but when the signature and product description match and the
data-model-version key is missing it raises a key error instead of
returning `false`. -/
theorem is_compatible_characterization (f : FileOnDisk) :
    (is_compatible f = .ok true ↔
      f.magic = HDF5_SIGNATURE
      ∧ mapLookup f.attrs "CTA PRODUCT DESCRIPTION" = some "DL1 Data Product"
      ∧ mapLookup f.attrs "CTA PRODUCT DATA MODEL VERSION" = some "v1.0.0")
    ∧ (is_compatible f = .error CompatError.keyError ↔
      f.magic = HDF5_SIGNATURE
      ∧ mapLookup f.attrs "CTA PRODUCT DESCRIPTION" = some "DL1 Data Product"
      ∧ mapLookup f.attrs "CTA PRODUCT DATA MODEL VERSION" = none) := by
  by_cases h1 : f.magic = HDF5_SIGNATURE
  · rcases h2 : mapLookup f.attrs "CTA PRODUCT DESCRIPTION" with _ | desc
    · simp [is_compatible, h1, h2]
    · by_cases h3 : desc = "DL1 Data Product"
      · subst h3
        rcases h4 : mapLookup f.attrs "CTA PRODUCT DATA MODEL VERSION" with _ | ver
        · simp [is_compatible, h1, h2, h4]
        · by_cases h5 : ver = "v1.0.0" <;>
            simp [is_compatible, h1, h2, h4, h5]
      · simp [is_compatible, h1, h2, h3]
  · simp [is_compatible, h1]

/-! ## Claims C5-C10 -/

/-- A two-datalevel file whose single assembled event triggers telescope 1,
which has an image table (one row) but is missing from the parameters
group. -/
def exC5param : DL1File :=
  { process_type := some "Observation"
    trigger_table := [⟨1, 99, 0, []⟩, ⟨1, 1, 10, [true]⟩]
    tel_trigger_table := [⟨1, 1, 1, 10⟩]
    image_group := some [(1, [⟨[21], [2], [true]⟩])]
    param_group := some []
    array_pointing := [⟨0, 0, 0, 0, 0⟩]
    tel_pointing := [(1, [⟨0, 0, 0⟩])]
    simulation := none
    config_simulation_run := none }

/-- Claim C5, counterexample. The claim says a triggered telescope missing
from the image (or parameter) table is absent from that event's
`per_telescope_dl1`; but on `exC5param` (both datalevels read, telescope 1
present in the image table and missing from the parameter table) the
yielded event KEEPS telescope 1's entry, with the image fields set and no
parameter bundle — the telescope is not absent from the map. -/
theorem param_missing_keeps_image_entry :
    (generate_events exC5param none).map (fun evs => evs.map (fun e => e.dl1_tel))
      = .ok [[(1, ⟨some ⟨[21], [2], [true]⟩, none⟩)]]
    ∧ mapLookup (exC5param.param_group.getD []) 1 = none
    ∧ datalevels exC5param = some [DataLevel.DL1_IMAGES, DataLevel.DL1_PARAMETERS] := by
  decide

/-- Claim C5, amended. A triggered telescope is absent from
`per_telescope_dl1` of every yielded event when it is missing from the
image table while the IMAGES datalevel is read, or missing from the
parameter table while PARAMETERS is the only datalevel read (only a
diagnostic is logged, and generation continues: the theorem applies to any
successful run). With both datalevels, a telescope present in the image
table but missing from the parameter table instead keeps its entry with
image data only (the counterexample above). -/
theorem missing_read_table_absent_from_dl1 (f : DL1File) (allowed : Option (List Nat))
    (levels : List DataLevel) (evs : List Event) (ev : Event) (tel : Nat)
    (hlevels : datalevels f = some levels)
    (habs : (levels.contains DataLevel.DL1_IMAGES = true
              ∧ mapLookup (f.image_group.getD []) tel = none)
          ∨ (levels.contains DataLevel.DL1_IMAGES = false
              ∧ levels.contains DataLevel.DL1_PARAMETERS = true
              ∧ mapLookup (f.param_group.getD []) tel = none))
    (hgen : generate_events f allowed = .ok evs)
    (hev : ev ∈ evs) :
    mapLookup ev.dl1_tel tel = none := by
  simp only [generate_events] at hgen
  rcases hpt : f.process_type with _ | s
  · simp only [hpt] at hgen; cases hgen
  simp only [hpt] at hgen
  simp only [hlevels] at hgen
  rcases habs with ⟨hlv, himg⟩ | ⟨hlvI, hlvP, hprm⟩
  · simp only [hlv, if_true] at hgen
    exact generateLoop_image_absent f allowed levels (parse_mc_headers f) tel hlv
      f.trigger_table 0 _ _ _ evs himg hgen ev hev
  · simp only [hlvI, hlvP, Bool.false_eq_true, if_false, if_true] at hgen
    exact generateLoop_param_absent f allowed levels (parse_mc_headers f) tel hlvI hlvP
      f.trigger_table 0 _ _ _ evs hprm hgen ev hev

/-- The spec's 3-event 2-telescope simulation scenario: telescope 1 has an
image table and triggers in all three events, telescope 2 has no image
table and triggers only in the second event. (Because the loop consumes
two trigger rows per event, the six-row trigger table yields three events
built from rows 1, 3 and 5.) -/
def exC5 : DL1File :=
  { process_type := some "Simulation"
    trigger_table :=
      [⟨1, 900, 0, []⟩, ⟨1, 1, 10, [true]⟩,
       ⟨1, 901, 0, []⟩, ⟨1, 2, 20, [true, true]⟩,
       ⟨1, 902, 0, []⟩, ⟨1, 3, 30, [true]⟩]
    tel_trigger_table :=
      [⟨1, 1, 1, 10⟩, ⟨1, 2, 1, 20⟩, ⟨1, 2, 2, 20⟩, ⟨1, 3, 1, 30⟩]
    image_group := some [(1, [⟨[11], [1], [true]⟩, ⟨[12], [2], [true]⟩, ⟨[13], [3], [true]⟩])]
    param_group := none
    array_pointing := [⟨0, 7, 8, 9, 10⟩]
    tel_pointing := [(1, [⟨0, 1, 2⟩]), (2, [⟨0, 3, 4⟩])]
    simulation := some ⟨[101, 102, 103], false⟩
    config_simulation_run := some [⟨1, 42⟩] }

def evsC5 : List Event := (generate_events exC5 none).toOption.getD []

def evC5_1 : Event := evsC5.getD 0 default

def evC5_2 : Event := evsC5.getD 1 default

/-- A parameters-only file whose single assembled event triggers
telescopes 1 and 2; telescope 2 is missing from the parameters group. -/
def exC5paramsOnly : DL1File :=
  { process_type := some "Observation"
    trigger_table := [⟨1, 99, 0, []⟩, ⟨1, 1, 10, [true, true]⟩]
    tel_trigger_table := [⟨1, 1, 1, 10⟩, ⟨1, 1, 2, 10⟩]
    image_group := none
    param_group := some [(1, [⟨1, 2, 3, 4, 5, 6, 7⟩])]
    array_pointing := [⟨0, 0, 0, 0, 0⟩]
    tel_pointing := [(1, [⟨0, 0, 0⟩]), (2, [⟨0, 0, 0⟩])]
    simulation := none
    config_simulation_run := none }

def evsC5p : List Event := (generate_events exC5paramsOnly none).toOption.getD []

def evC5p : Event := evsC5p.getD 0 default

/-- Witness for the amended C5, both branches. Image branch, at the spec's
scenario: in the second yielded event telescope 2 triggered but is absent
from the DL1 map, while telescope 1 is present in all three events and the
whole file is read to completion. Parameter branch, at the
parameters-only file: telescope 2 triggered but is absent, telescope 1 is
present. -/
theorem missing_read_table_absent_from_dl1_witness :
    mapLookup evC5_2.dl1_tel 2 = none
    ∧ evsC5.length = 3
    ∧ evC5_2.tels_with_trigger = [1, 2]
    ∧ evsC5.map (fun e => e.dl1_tel.map (fun p => p.1)) = [[1], [1], [1]]
    ∧ mapLookup evC5p.dl1_tel 2 = none
    ∧ evsC5p.map (fun e => e.dl1_tel.map (fun p => p.1)) = [[1]] :=
  ⟨missing_read_table_absent_from_dl1 exC5 none [DataLevel.DL1_IMAGES] evsC5 evC5_2 2
      rfl (Or.inl ⟨rfl, rfl⟩) rfl (by decide),
    by decide, by decide, by decide,
    missing_read_table_absent_from_dl1 exC5paramsOnly none [DataLevel.DL1_PARAMETERS]
      evsC5p evC5p 2 rfl (Or.inr ⟨rfl, rfl, rfl⟩) rfl (by decide),
    by decide⟩

/-- A two-level file whose single assembled event triggers telescope 1,
which is missing from the image table but present (with one row) in the
parameter table. -/
def exC6 : DL1File :=
  { process_type := some "Observation"
    trigger_table := [⟨1, 99, 0, []⟩, ⟨1, 1, 10, [true]⟩]
    tel_trigger_table := [⟨1, 1, 1, 10⟩]
    image_group := some []
    param_group := some [(1, [⟨1, 2, 3, 4, 5, 6, 7⟩])]
    array_pointing := [⟨0, 0, 0, 0, 0⟩]
    tel_pointing := [(1, [⟨0, 0, 0⟩])]
    simulation := none
    config_simulation_run := none }

/-- Claim C6, counterexample. With both datalevels present, a triggered
telescope missing from the image table was claimed to still get its
parameter bundle read and attached; but on `exC6` the yielded event's DL1
map is empty even though the telescope triggered and its parameter table
holds a row — the image-missing `continue` skips the parameter branch. -/
theorem image_missing_skips_parameters_counterexample :
    (generate_events exC6 none).map (fun evs => evs.map (fun e => (e.trigger_tel, e.dl1_tel)))
      = .ok [([(1, 10)], [])]
    ∧ mapLookup (exC6.param_group.getD []) 1 ≠ none
    ∧ datalevels exC6 = some [DataLevel.DL1_IMAGES, DataLevel.DL1_PARAMETERS] := by
  decide

/-- Claim C6, amended. When the IMAGES datalevel is read, a triggered
telescope missing from the image table is omitted from BOTH data
categories of the event — no entry at all in the DL1 map — and its
parameter cursor is left unadvanced (the telescope's entry in the
parameter cursor state is unchanged). -/
theorem image_missing_skips_parameters (levels : List DataLevel)
    (allowed : Option (List Nat)) (tels : List Nat) (imgs : List (Nat × List ImageRow))
    (prms : List (Nat × List ParamRow)) (out : List (Nat × TelDL1))
    (imgs' : List (Nat × List ImageRow)) (prms' : List (Nat × List ParamRow)) (tel : Nat)
    (hlv : levels.contains DataLevel.DL1_IMAGES = true)
    (himg : mapLookup imgs tel = none)
    (h : fillDL1 levels allowed tels imgs prms = .ok (out, imgs', prms')) :
    mapLookup out tel = none ∧ mapLookup prms' tel = mapLookup prms tel :=
  ⟨(fillDL1_image_absent levels allowed tel hlv tels imgs prms out imgs' prms' himg h).1,
    (fillDL1_image_absent levels allowed tel hlv tels imgs prms out imgs' prms' himg h).2.2⟩

/-- Witness for the amended C6, instantiated at `exC6`'s tables. -/
theorem image_missing_skips_parameters_witness :
    mapLookup ([] : List (Nat × TelDL1)) 1 = none
    ∧ mapLookup (exC6.param_group.getD []) 1 = mapLookup (exC6.param_group.getD []) 1 :=
  image_missing_skips_parameters [DataLevel.DL1_IMAGES, DataLevel.DL1_PARAMETERS] none
    [1] [] (exC6.param_group.getD []) [] [] (exC6.param_group.getD []) 1 rfl rfl rfl

/-- Claim C7. In a simulation file, every yielded event's run header is
exactly the run-header registry entry for that event's own
`index.observation_id`, and it is always present (when the id has no
registry entry the generator raises a key error instead of yielding). -/
theorem run_header_join_correct (f : DL1File) (allowed : Option (List Nat))
    (evs : List Event) (ev : Event)
    (hsim : f.simulation.isSome = true)
    (hgen : generate_events f allowed = .ok evs)
    (hev : ev ∈ evs) :
    ev.mcheader = mapLookup (parse_mc_headers f) ev.index.obs_id
    ∧ ev.mcheader.isSome = true := by
  simp only [generate_events] at hgen
  rcases hpt : f.process_type with _ | s
  · simp only [hpt] at hgen; cases hgen
  simp only [hpt] at hgen
  rcases hdl : datalevels f with _ | levels
  · simp only [hdl] at hgen; cases hgen
  simp only [hdl] at hgen
  obtain ⟨rowB, c', s0, i0, p0, s1, i1, p1, hmem, hpp⟩ :=
    generateLoop_mem f allowed levels (parse_mc_headers f) f.trigger_table 0 _ _ _ evs
      hgen ev hev
  obtain ⟨hidx, _, _, _, _, hmc⟩ :=
    processPair_ok_spec f allowed levels (parse_mc_headers f) rowB c' s0 i0 p0 ev s1 i1 p1 hpp
  obtain ⟨hmch, hsome⟩ := hmc hsim
  refine ⟨?_, hsome⟩
  rw [hidx]
  exact hmch

/-- A simulation file whose trigger rows carry `obs_id = 1` but whose run
configuration table only has an entry for `obs_id = 2`. -/
def exC7bad : DL1File :=
  { process_type := some "Simulation"
    trigger_table := [⟨1, 99, 0, []⟩, ⟨1, 1, 10, []⟩]
    tel_trigger_table := []
    image_group := some []
    param_group := none
    array_pointing := [⟨0, 0, 0, 0, 0⟩]
    tel_pointing := []
    simulation := some ⟨[5], false⟩
    config_simulation_run := some [⟨2, 7⟩] }

/-- Witness for C7: in the scenario file the first event's run header is
the registry entry `42` for its `obs_id`, and on `exC7bad` (whose `obs_id`
has no registry entry) generation aborts with the key error. -/
theorem run_header_join_correct_witness :
    evC5_1.mcheader = mapLookup (parse_mc_headers exC5) evC5_1.index.obs_id
    ∧ evC5_1.mcheader = some 42
    ∧ generate_events exC7bad none = .error (GenError.keyError 1) :=
  ⟨(run_header_join_correct exC5 none evsC5 evC5_1 rfl rfl (by decide)).1,
    by decide, by decide⟩

/-- Claim C8. For every yielded event of a well-formed file (each
per-telescope trigger row of an event lies inside that event's decoded
trigger bitmap, as the source comments assume), every telescope id in the
DL1 map is in `tels_with_trigger`, and any telescope id appearing in the
DL1 map, the per-telescope pointing map, or the per-telescope trigger-time
map is acceptable under the configured allow-list. -/
theorem dl1_closure_triggered_and_allowed (f : DL1File) (allowed : Option (List Nat))
    (evs : List Event) (ev : Event) (tel : Nat)
    (hwf : ∀ trow ∈ f.trigger_table, ∀ r ∈ f.tel_trigger_table,
      r.obs_id = trow.obs_id → r.event_id = trow.event_id →
      r.tel_id ∈ decodeTelsWithTrigger trow.tels_with_trigger)
    (hgen : generate_events f allowed = .ok evs)
    (hev : ev ∈ evs) :
    ((mapLookup ev.dl1_tel tel).isSome = true → tel ∈ ev.tels_with_trigger)
    ∧ ((mapLookup ev.dl1_tel tel).isSome = true
        ∨ (mapLookup ev.pointing_tel tel).isSome = true
        ∨ (mapLookup ev.trigger_tel tel).isSome = true →
        allowedOk allowed tel) := by
  simp only [generate_events] at hgen
  rcases hpt : f.process_type with _ | s
  · simp only [hpt] at hgen; cases hgen
  simp only [hpt] at hgen
  rcases hdl : datalevels f with _ | levels
  · simp only [hdl] at hgen; cases hgen
  simp only [hdl] at hgen
  obtain ⟨rowB, c', s0, i0, p0, s1, i1, p1, hmem, hpp⟩ :=
    generateLoop_mem f allowed levels (parse_mc_headers f) f.trigger_table 0 _ _ _ evs
      hgen ev hev
  obtain ⟨hidx, htw, htt, hptg, ⟨idl, pdl, hdl1⟩, _⟩ :=
    processPair_ok_spec f allowed levels (parse_mc_headers f) rowB c' s0 i0 p0 ev s1 i1 p1 hpp
  have hscan : ∀ q ∈ ev.trigger_tel,
      q.1 ∈ decodeTelsWithTrigger rowB.tels_with_trigger
        ∧ allowedBlocks allowed q.1 = false := by
    rw [htt]
    refine scanTelTriggers_forall allowed rowB.obs_id rowB.event_id _ f.tel_trigger_table [] ?_ ?_
    · intro r hr ho he hb
      exact ⟨hwf rowB hmem r hr ho he, hb⟩
    · intro p hp
      simp at hp
  constructor
  · intro hds
    obtain ⟨d, hd⟩ := Option.isSome_iff_exists.mp hds
    obtain ⟨hmt, _⟩ := fillDL1_keys levels allowed _ i0 p0 _ idl pdl hdl1 (tel, d)
      (mapLookup_mem _ _ _ hd)
    have hmt2 : tel ∈ ev.trigger_tel.map (fun q => q.1) := hmt
    obtain ⟨q, hq, hq1⟩ := List.mem_map.mp hmt2
    rw [htw]
    exact hq1 ▸ (hscan q hq).1
  · intro hmem3
    have hblock : allowedBlocks allowed tel = false := by
      rcases hmem3 with hds | hps | hts
      · obtain ⟨d, hd⟩ := Option.isSome_iff_exists.mp hds
        exact (fillDL1_keys levels allowed _ i0 p0 _ idl pdl hdl1 (tel, d)
          (mapLookup_mem _ _ _ hd)).2
      · obtain ⟨pt, hp⟩ := Option.isSome_iff_exists.mp hps
        obtain ⟨t', ht'⟩ := fillTelescopePointing_keys f.tel_pointing allowed
          ev.trigger_tel ev.pointing_tel hptg (tel, pt) (mapLookup_mem _ _ _ hp)
        exact (hscan (tel, t') ht').2
      · obtain ⟨t', ht'⟩ := Option.isSome_iff_exists.mp hts
        exact (hscan (tel, t') (mapLookup_mem _ _ _ ht')).2
    exact allowedBlocks_false_allowedOk allowed tel hblock

/-- A file where telescopes 1 and 2 both trigger the assembled event, read
with the allow-list `[1]`. -/
def exC8 : DL1File :=
  { process_type := some "Observation"
    trigger_table := [⟨1, 99, 0, []⟩, ⟨1, 1, 10, [true, true]⟩]
    tel_trigger_table := [⟨1, 1, 1, 10⟩, ⟨1, 1, 2, 10⟩]
    image_group := some [(1, [⟨[1], [1], [true]⟩])]
    param_group := none
    array_pointing := [⟨0, 0, 0, 0, 0⟩]
    tel_pointing := [(1, [⟨0, 0, 0⟩])]
    simulation := none
    config_simulation_run := none }

def evsC8 : List Event := (generate_events exC8 (some [1])).toOption.getD []

def evC8 : Event := evsC8.getD 0 default

/-- Witness for C8: telescope 1 appears in the DL1 map of the event, is a
member of the decoded trigger set, and is acceptable under the allow-list. -/
theorem dl1_closure_triggered_and_allowed_witness :
    1 ∈ evC8.tels_with_trigger
    ∧ allowedOk (some [1]) 1
    ∧ (mapLookup evC8.dl1_tel 1).isSome = true :=
  ⟨(dl1_closure_triggered_and_allowed exC8 (some [1]) evsC8 evC8 1 (by decide) rfl
      (by decide)).1 (by decide),
    (dl1_closure_triggered_and_allowed exC8 (some [1]) evsC8 evC8 1 (by decide) rfl
      (by decide)).2 (Or.inl (by decide)),
    by decide⟩

/-- Claim C9. When the `dl1.event.telescope` tree has neither an `images`
nor a `parameters` group, `datalevels` is `None` rather than an empty
tuple, and the first request for an event fails with a type error (the
`in`-test against `None`) before anything is yielded. -/
theorem empty_datalevels_type_error (f : DL1File) (allowed : Option (List Nat))
    (h1 : f.image_group = none) (h2 : f.param_group = none)
    (h3 : f.process_type.isSome = true) :
    datalevels f = none ∧ generate_events f allowed = .error GenError.typeError := by
  have hd : datalevels f = none := by
    simp [datalevels, h1, h2]
  refine ⟨hd, ?_⟩
  simp only [generate_events]
  rcases hpt : f.process_type with _ | s
  · rw [hpt] at h3; cases h3
  simp only [hd]

/-- A degenerate file: `dl1` tree with no images and no parameters group. -/
def exC9 : DL1File :=
  ⟨some "Observation", [], [], none, none, [], [], none, none⟩

/-- Witness for C9 at the degenerate file. -/
theorem empty_datalevels_type_error_witness :
    datalevels exC9 = none ∧ generate_events exC9 none = .error GenError.typeError :=
  empty_datalevels_type_error exC9 none rfl rfl rfl

/-- Claim C10. Every telescope with a recorded per-telescope trigger time
in a yielded event had its monitoring pointing node looked up successfully
and received a pointing entry (never logged-and-skipped); contrapositively,
a missing node makes the generator abort with a node-lookup error before
the event is yielded (see the witness's `exC10bad` conjunct). -/
theorem tel_pointing_node_required (f : DL1File) (allowed : Option (List Nat))
    (evs : List Event) (ev : Event) (tel : Nat) (t : Int)
    (hgen : generate_events f allowed = .ok evs) (hev : ev ∈ evs)
    (ht : (tel, t) ∈ ev.trigger_tel) :
    (mapLookup f.tel_pointing tel).isSome = true
    ∧ (mapLookup ev.pointing_tel tel).isSome = true := by
  simp only [generate_events] at hgen
  rcases hpt : f.process_type with _ | s
  · simp only [hpt] at hgen; cases hgen
  simp only [hpt] at hgen
  rcases hdl : datalevels f with _ | levels
  · simp only [hdl] at hgen; cases hgen
  simp only [hdl] at hgen
  obtain ⟨rowB, c', s0, i0, p0, s1, i1, p1, hmem, hpp⟩ :=
    generateLoop_mem f allowed levels (parse_mc_headers f) f.trigger_table 0 _ _ _ evs
      hgen ev hev
  obtain ⟨hidx, htw, htt, hptg, _, _⟩ :=
    processPair_ok_spec f allowed levels (parse_mc_headers f) rowB c' s0 i0 p0 ev s1 i1 p1 hpp
  have hb : allowedBlocks allowed tel = false :=
    scanTelTriggers_forall allowed rowB.obs_id rowB.event_id
      (fun q => allowedBlocks allowed q.1 = false) f.tel_trigger_table []
      (fun r _ _ _ hbl => hbl) (fun p hp => by simp at hp) (tel, t) (htt ▸ ht)
  exact fillTelescopePointing_ok f.tel_pointing allowed ev.trigger_tel ev.pointing_tel
    hptg (tel, t) ht hb

/-- A file whose single assembled event has a recorded trigger time for
telescope 1, but no `tel_001` node under the telescope pointing group. -/
def exC10bad : DL1File :=
  { process_type := some "Observation"
    trigger_table := [⟨1, 99, 0, []⟩, ⟨1, 1, 10, [true]⟩]
    tel_trigger_table := [⟨1, 1, 1, 10⟩]
    image_group := some []
    param_group := none
    array_pointing := [⟨0, 0, 0, 0, 0⟩]
    tel_pointing := []
    simulation := none
    config_simulation_run := none }

/-- Witness for C10: telescope 1 of the scenario file's first event had its
node and got pointing; and on `exC10bad` the missing node aborts the whole
generation with the node-lookup error (no event yielded). -/
theorem tel_pointing_node_required_witness :
    (mapLookup exC5.tel_pointing 1).isSome = true
    ∧ (mapLookup evC5_1.pointing_tel 1).isSome = true
    ∧ generate_events exC10bad none = .error (GenError.nodeError 1) :=
  ⟨(tel_pointing_node_required exC5 none evsC5 evC5_1 1 10 rfl (by decide) (by decide)).1,
    (tel_pointing_node_required exC5 none evsC5 evC5_1 1 10 rfl (by decide) (by decide)).2,
    by decide⟩

end DL1
